import Mathlib

/-!
Shallow embedding of `src/inbox/config.py` (the configuration loader of the
sync-engine repository): the `Configuration` dict subclass, the module-level
startup sequence (`_update_config_from_env`, `_get_local_feature_flags`,
`_get_process_name`, the `MYSQL_PASSWORD` check), and `engine_uri`.

Python's ambient state is made explicit: `OsEnv` holds the environment
variables the module reads, and `FS` maps file paths to the outcome of
opening and YAML-parsing them.  Python exceptions become the `PyError`
inductive and fallible code returns `Except PyError`.
-/

namespace InboxConfig

/-- Values stored in the configuration dict.  The module only ever
manipulates strings, integers (`MYSQL_PORT`) and lists of strings
(`FEATURE_FLAGS`), so those are the value shapes embedded here. -/
inductive Value where
  | vStr (s : String)
  | vInt (n : Int)
  | vStrList (xs : List String)
deriving DecidableEq, Repr

/-- The configuration dict: an insertion-ordered association list with
unique keys, like a Python `dict`. -/
abbrev Config := List (String × Value)

/-- Python `dict` lookup (`config[key]` / `config.get(key)` /
`key in config`): the first binding for the key, if any. -/
def cfgGet (c : Config) (k : String) : Option Value :=
  (c.find? (fun e => e.1 == k)).map (fun e => e.2)

/-- Python `dict` item assignment `config[key] = v`: overwrite in place if
the key exists, otherwise append. -/
def setKey : Config → String → Value → Config
  | [], k, v => [(k, v)]
  | (k2, v2) :: rest, k, v =>
    if k2 == k then (k2, v) :: rest else (k2, v2) :: setKey rest k v

/-- Python `dict.update(entries)`: shallow merge, later keys overwriting. -/
def updateDict (c : Config) (entries : List (String × Value)) : Config :=
  entries.foldl (fun acc kv => setKey acc kv.1 kv.2) c

/-- A single-quote character, used when rendering Python string reprs. -/
def squote : String := String.singleton (Char.ofNat 39)

/-- Python `repr` of a value, as it appears inside `str` of a list. -/
def pyRepr : Value → String
  | .vStr s => squote ++ s ++ squote
  | .vInt n => toString n
  | .vStrList xs =>
      "[" ++ String.intercalate ", " (xs.map (fun s => squote ++ s ++ squote)) ++ "]"

/-- Python `str()` of a value (used on `MYSQL_PORT` in `engine_uri`). -/
def pyStr : Value → String
  | .vStr s => s
  | .vInt n => toString n
  | .vStrList xs =>
      "[" ++ String.intercalate ", " (xs.map (fun s => squote ++ s ++ squote)) ++ "]"

/-- The characters Python `str.strip` / `str.split` treat as whitespace. -/
def isPySpace (c : Char) : Bool :=
  c == ' ' || c == '\t' || c == '\n' || c == '\r' || c.toNat == 11 || c.toNat == 12

/-- Accumulating pass behind `pySplit`: the words of a character list. -/
def pyWords : List Char → List Char → List String
  | [], acc => if acc.isEmpty then [] else [String.mk acc.reverse]
  | c :: rest, acc =>
    if isPySpace c then
      if acc.isEmpty then pyWords rest []
      else String.mk acc.reverse :: pyWords rest []
    else pyWords rest (c :: acc)

/-- Python `str.split()` with no argument: split on whitespace runs,
discarding empty pieces. -/
def pySplit (s : String) : List String := pyWords s.toList []

/-- Python `str.strip()`: drop leading and trailing whitespace. -/
def pyStrip (s : String) : String :=
  String.mk (((s.toList.dropWhile isPySpace).reverse.dropWhile isPySpace).reverse)

/-- Accumulating pass behind `splitOnChar`. -/
def splitOnCharAux (sep : Char) : List Char → List Char → List String
  | [], acc => [String.mk acc.reverse]
  | c :: rest, acc =>
    if c == sep then String.mk acc.reverse :: splitOnCharAux sep rest []
    else splitOnCharAux sep rest (c :: acc)

/-- Python `str.split(sep)` for a one-character separator: split at every
occurrence, keeping empty pieces. -/
def splitOnChar (sep : Char) (s : String) : List String :=
  splitOnCharAux sep s.toList []

/-- The characters Python 2 `urllib.quote` never escapes
(letters, digits, underscore, dot, hyphen). -/
def alwaysSafe (c : Char) : Bool :=
  c.isAlpha || c.isDigit || c == '_' || c == '.' || c == '-'

/-- Uppercase hexadecimal digit for a value below 16. -/
def hexUpper (n : Nat) : Char :=
  if n < 10 then Char.ofNat (48 + n) else Char.ofNat (55 + n)

/-- Encoding of one character under Python 2 `urllib.quote_plus` with an
empty safe-set: safe characters pass through, a space becomes `+`, anything
else becomes a percent-escape of its byte value. -/
def quoteChar (c : Char) : String :=
  if alwaysSafe c then String.singleton c
  else if c == ' ' then "+"
  else "%" ++ String.singleton (hexUpper (c.toNat / 16)) ++
    String.singleton (hexUpper (c.toNat % 16))

/-- `urllib.quote_plus`, imported as `urlquote` in config.py line 4. -/
def urlquote (s : String) : String :=
  String.join (s.toList.map quoteChar)

/-- Python exceptions raised by config.py: `ConfigError` (with its `error`
and `help` fields), the `assert` failure on `INBOX_ENV`, re-raised
`IOError`/`OSError` (with errno and path), YAML parse errors, the
`TypeError` from `dict.update(None)`, the `AttributeError` from calling
`.split()` on a non-string, and the bare `Exception` raised when
`MYSQL_PASSWORD` is missing. -/
inductive PyError where
  | configError (error : String) (help : String)
  | assertionError (msg : String)
  | ioError (errno : Nat) (path : String)
  | yamlError (path : String)
  | typeError (msg : String)
  | attributeError (msg : String)
  | exception (msg : String)
deriving DecidableEq, Repr

/-- The environment variables config.py consumes (section 6 of the spec):
`INBOX_ENV`, `INBOX_CFG_PATH`, `FEATURE_FLAGS`, `PROCESS_NAME`,
`MYSQL_PORT_3306_TCP_ADDR`, `MYSQL_PORT_3306_TCP_PORT`. -/
structure OsEnv where
  inboxEnv : Option String
  inboxCfgPath : Option String
  featureFlags : Option String
  processName : Option String
  mysqlTcpAddr : Option String
  mysqlTcpPort : Option String
deriving DecidableEq, Repr

/-- What `yaml.safe_load` returns for a file that opened and parsed:
either the null document (empty or comment-only file) or a key-value
mapping. -/
inductive Doc where
  | null
  | mapping (entries : List (String × Value))
deriving DecidableEq, Repr

/-- The outcome of `open(filename)` followed by `yaml.safe_load`:
the open call raises `IOError`/`OSError` with some errno, or the parse
raises, or a document is produced. -/
inductive FileOutcome where
  | openErr (errno : Nat)
  | parseErr
  | parsed (d : Doc)
deriving DecidableEq, Repr

/-- The file system visible to the merge loop: outcomes for the paths that
behave specially; every other path fails to open with `ENOENT`. -/
abbrev FS := List (String × FileOutcome)

/-- `errno.ENOENT`. -/
def ENOENT : Nat := 2

/-- Outcome of opening and parsing a path, defaulting to file-not-found. -/
def fsLookup (fs : FS) (p : String) : FileOutcome :=
  match fs.find? (fun e => e.1 == p) with
  | some e => e.2
  | none => .openErr ENOENT

/-- Message of the `TypeError` Python raises for `dict.update(None)`. -/
def noneTypeMsg : String :=
  squote ++ "NoneType" ++ squote ++ " object is not iterable"

/-- One iteration of the merge loop (config.py lines 87-96): open the file;
on `IOError`/`OSError` re-raise unless the errno is `ENOENT` (missing files
are skipped, the config unchanged); otherwise parse with `yaml.safe_load`
and `config.update` the result (a null document makes `dict.update` raise
`TypeError`). -/
def readConfigFile (fs : FS) (config : Config) (filename : String) :
    Except PyError Config :=
  match fsLookup fs filename with
  | .openErr e => if e ≠ ENOENT then .error (.ioError e filename) else .ok config
  | .parseErr => .error (.yamlError filename)
  | .parsed .null => .error (.typeError noneTypeMsg)
  | .parsed (.mapping entries) => .ok (updateDict config entries)

/-- The merge pass of `_update_config_from_env` (spec: `merge_from_files`):
read the search path in reverse order, shallow-merging each file into the
configuration, so earlier (higher-priority) paths are merged last. -/
def mergeFromFiles (fs : FS) (path : List String) (config : Config) :
    Except PyError Config :=
  path.reverse.foldlM (fun c fn => readConfigFile fs c fn) config

/-- The `assert` message on config.py lines 61-62. -/
def inboxEnvAssertMsg : String :=
  "INBOX_ENV must be either " ++ squote ++ "dev" ++ squote ++ ", " ++
    squote ++ "test" ++ squote ++ ", staging, or " ++ squote ++ "prod" ++ squote

/-- config.py lines 60-65 (spec: `resolve_environment`): `INBOX_ENV` must
be one of dev, test, staging, prod (an `assert` fires otherwise) and
defaults to prod when unset. -/
def resolveEnvironment (osenv : OsEnv) : Except PyError String :=
  match osenv.inboxEnv with
  | some e =>
      if e = "dev" ∨ e = "test" ∨ e = "staging" ∨ e = "prod" then .ok e
      else .error (.assertionError inboxEnvAssertMsg)
  | none => .ok "prod"

/-- `os.path.pathsep` on the POSIX platforms this code targets. -/
def pathSep : Char := ':'

/-- config.py lines 79-81: split `INBOX_CFG_PATH` on the path separator,
strip each entry, and drop entries that strip to nothing. -/
def splitCfgPath (s : String) : List String :=
  ((splitOnChar pathSep s).map (fun p => pyStrip p)).filter (fun p => p ≠ "")

/-- config.py lines 67-77: the two built-in default paths for the
environment, secrets file first. -/
def baseCfgPath (env srcdir : String) : List String :=
  if env = "prod" ∨ env = "staging" then
    ["/etc/inboxapp/secrets.yml", "/etc/inboxapp/config.json"]
  else
    [srcdir ++ "/etc/secrets-" ++ env ++ ".yml",
     srcdir ++ "/etc/config-" ++ env ++ ".json"]

/-- config.py lines 79-85 (spec: `build_search_path`): `INBOX_CFG_PATH`
entries (if the variable is set) followed by the built-in defaults. -/
def buildSearchPath (osenv : OsEnv) (env srcdir : String) : List String :=
  (match osenv.inboxCfgPath with
   | some s => splitCfgPath s
   | none => []) ++ baseCfgPath env srcdir

/-- `_update_config_from_env(config)` (config.py lines 34-96): resolve the
environment, build the search path, merge the files. -/
def updateConfigFromEnv (osenv : OsEnv) (fs : FS) (srcdir : String)
    (config : Config) : Except PyError Config := do
  let env ← resolveEnvironment osenv
  mergeFromFiles fs (buildSearchPath osenv env srcdir) config

/-- Message of the `AttributeError` raised by `.split()` on a non-string
config value. -/
def noSplitMsg : String := "object has no attribute split"

/-- `_get_local_feature_flags(config)` (config.py lines 99-104): split the
`FEATURE_FLAGS` environment variable if set, else split the config value
(defaulting to the empty string; a non-string value makes `.split()` raise
`AttributeError`), and store the list back under `FEATURE_FLAGS`. -/
def getLocalFeatureFlags (osenv : OsEnv) (config : Config) :
    Except PyError Config :=
  match osenv.featureFlags with
  | some s => .ok (setKey config "FEATURE_FLAGS" (.vStrList (pySplit s)))
  | none =>
      match cfgGet config "FEATURE_FLAGS" with
      | none => .ok (setKey config "FEATURE_FLAGS" (.vStrList (pySplit "")))
      | some (.vStr s) => .ok (setKey config "FEATURE_FLAGS" (.vStrList (pySplit s)))
      | some _ => .error (.attributeError noSplitMsg)

/-- `_get_process_name(config)` (config.py lines 107-109): copy the
`PROCESS_NAME` environment variable into the config if it is set. -/
def getProcessName (osenv : OsEnv) (config : Config) : Config :=
  match osenv.processName with
  | some s => setKey config "PROCESS_NAME" (.vStr s)
  | none => config

/-- Message of the bare `Exception` on config.py lines 116-119. -/
def missingSecretsMsg : String :=
  "Missing secrets config file? Run `sudo cp etc/secrets-dev.yml " ++
    "/etc/inboxapp/secrets.yml` and retry"

/-- The module-level statements before the `MYSQL_PASSWORD` check
(config.py lines 111-114): build the config, merge the files, apply the
feature-flag and process-name overrides. -/
def preStartup (osenv : OsEnv) (fs : FS) (srcdir : String) :
    Except PyError Config := do
  let c1 ← updateConfigFromEnv osenv fs srcdir ([] : Config)
  let c2 ← getLocalFeatureFlags osenv c1
  .ok (getProcessName osenv c2)

/-- The whole module-level startup sequence (config.py lines 111-119):
`preStartup` followed by the fatal check that `MYSQL_PASSWORD` made it into
the configuration. -/
def startup (osenv : OsEnv) (fs : FS) (srcdir : String) :
    Except PyError Config := do
  let c ← preStartup osenv fs srcdir
  match cfgGet c "MYSQL_PASSWORD" with
  | none => .error (.exception missingSecretsMsg)
  | some _ => .ok c

/-- The default `help` text of `ConfigError` (config.py lines 15-17). -/
def defaultConfigHelp : String :=
  "Run `sudo cp etc/config-dev.json /etc/inboxapp/config.json` and " ++ "retry."

/-- `ConfigError.__str__` (config.py lines 19-20). -/
def configErrorStr (error help : String) : String := error ++ " " ++ help

/-- `Configuration.get_required(key)` (config.py lines 27-31): the stored
value, or a `ConfigError` naming the missing key (with the default
remediation help text). -/
def get_required (config : Config) (key : String) : Except PyError Value :=
  match cfgGet config key with
  | none =>
      .error (.configError ("Missing config value for " ++ key ++ ".") defaultConfigHelp)
  | some v => .ok v

/-- Python 2 `urllib.quote` raises `TypeError` when handed a non-string;
`engine_uri` quotes the username, password, host and database directly. -/
def asPyString : Value → Except PyError String
  | .vStr s => .ok s
  | _ => .error (.typeError "argument to urlquote is not a string")

/-- `database if database else ` empty (config.py line 132): Python
truthiness sends both `None` and the empty string to the empty string. -/
def dbSegment : Option String → String
  | none => ""
  | some d => if d = "" then "" else d

/-- The `uri_template` of config.py lines 141-142 applied to
already-looked-up field values, each percent-escaped with `urlquote`
(the dict comprehension on line 144). -/
def uriOf (username password host port database : String) : String :=
  "mysql+mysqldb://" ++ urlquote username ++ ":" ++ urlquote password ++ "@" ++
    urlquote host ++ ":" ++ urlquote port ++ "/" ++ urlquote database ++
    "?charset=utf8mb4"

/-- `engine_uri(database=None)` (config.py lines 124-144): fetch the four
required MySQL fields with `get_required` (stringifying the port), override
host and port with the docker-link environment variables when present, then
interpolate the percent-escaped values into the URI template. -/
def engine_uri (osenv : OsEnv) (config : Config) (database : Option String) :
    Except PyError String := do
  let usernameV ← get_required config "MYSQL_USER"
  let passwordV ← get_required config "MYSQL_PASSWORD"
  let hostV ← get_required config "MYSQL_HOSTNAME"
  let portV ← get_required config "MYSQL_PORT"
  let username ← asPyString usernameV
  let password ← asPyString passwordV
  let host ← match osenv.mysqlTcpAddr with
    | some a => Except.ok a
    | none => asPyString hostV
  let port := match osenv.mysqlTcpPort with
    | some p2 => p2
    | none => pyStr portV
  .ok (uriOf username password host port (dbSegment database))

/-! ### Dictionary lemmas -/

theorem cfgGet_setKey_self (c : Config) (k : String) (v : Value) :
    cfgGet (setKey c k v) k = some v := by
  induction c with
  | nil => simp [setKey, cfgGet, List.find?]
  | cons e rest ih =>
    obtain ⟨k2, v2⟩ := e
    by_cases hk : k2 == k
    · simp [setKey, cfgGet, List.find?, hk]
    · simp only [setKey, hk, if_false, Bool.false_eq_true]
      simpa [cfgGet, List.find?, hk] using ih

theorem cfgGet_setKey_ne (c : Config) (k k2 : String) (v : Value) (h : k2 ≠ k) :
    cfgGet (setKey c k v) k2 = cfgGet c k2 := by
  induction c with
  | nil =>
    have hne : (k == k2) = false := by
      simp only [beq_eq_false_iff_ne, ne_eq]
      exact fun he => h he.symm
    simp [setKey, cfgGet, List.find?, hne]
  | cons e rest ih =>
    obtain ⟨k3, v3⟩ := e
    by_cases hk : k3 == k
    · have hk3 : k3 = k := by simpa using hk
      subst hk3
      have hne : ¬(k3 == k2) = true := by
        simp
        exact fun he => h he.symm
      simp [setKey, cfgGet, List.find?, hne]
    · by_cases hk2 : k3 == k2
      · simp [setKey, hk, cfgGet, List.find?, hk2]
      · simp only [setKey, hk, if_false, Bool.false_eq_true]
        simpa [cfgGet, List.find?, hk2] using ih

theorem cfgGet_updateDict_none (entries : List (String × Value)) (c : Config)
    (k : String) (hc : cfgGet c k = none)
    (he : entries.all (fun kv => kv.1 != k) = true) :
    cfgGet (updateDict c entries) k = none := by
  induction entries generalizing c with
  | nil => simpa [updateDict]
  | cons kv rest ih =>
    simp only [List.all_cons, Bool.and_eq_true, bne_iff_ne] at he
    have hstep : cfgGet (setKey c kv.1 kv.2) k = none := by
      rw [cfgGet_setKey_ne c kv.1 k kv.2 (fun hkk => he.1 (hkk.symm))]
      exact hc
    have : updateDict c (kv :: rest) = updateDict (setKey c kv.1 kv.2) rest := by
      simp [updateDict]
    rw [this]
    exact ih _ hstep he.2

/-! ### File-outcome lemmas -/

/-- A file outcome whose parsed mapping (if any) never binds key `k`. -/
def outcomeLacksKey (k : String) : FileOutcome → Bool
  | .parsed (.mapping d) => d.all (fun kv => kv.1 != k)
  | _ => true

theorem fsLookup_lacksKey (fs : FS) (k : String)
    (h : fs.all (fun e => outcomeLacksKey k e.2) = true) (p : String) :
    outcomeLacksKey k (fsLookup fs p) = true := by
  induction fs with
  | nil => simp [fsLookup, List.find?, outcomeLacksKey]
  | cons e rest ih =>
    simp only [List.all_cons, Bool.and_eq_true] at h
    by_cases hp : e.1 == p
    · simpa [fsLookup, List.find?, hp] using h.1
    · simpa [fsLookup, List.find?, hp] using ih h.2

theorem readConfigFile_lacksKey (fs : FS) (c c2 : Config) (p k : String)
    (hout : outcomeLacksKey k (fsLookup fs p) = true)
    (hc : cfgGet c k = none)
    (hok : readConfigFile fs c p = .ok c2) :
    cfgGet c2 k = none := by
  unfold readConfigFile at hok
  cases hfs : fsLookup fs p with
  | openErr e =>
    rw [hfs] at hok
    by_cases he : e ≠ ENOENT
    · simp [he] at hok
    · simp [he] at hok
      rw [← hok]
      exact hc
  | parseErr => rw [hfs] at hok; exact absurd hok (by simp)
  | parsed d =>
    cases d with
    | null => rw [hfs] at hok; exact absurd hok (by simp)
    | mapping entries =>
      rw [hfs] at hok
      simp only [Except.ok.injEq] at hok
      rw [← hok]
      rw [hfs] at hout
      exact cfgGet_updateDict_none entries c k hc (by simpa [outcomeLacksKey] using hout)

theorem foldlM_readConfigFile_lacksKey (fs : FS) (k : String)
    (hall : ∀ p, outcomeLacksKey k (fsLookup fs p) = true) :
    ∀ (l : List String) (c c2 : Config), cfgGet c k = none →
      List.foldlM (fun acc fn => readConfigFile fs acc fn) c l = .ok c2 →
      cfgGet c2 k = none := by
  intro l
  induction l with
  | nil =>
    intro c c2 hc hfold
    simp only [List.foldlM, pure, Except.pure, Except.ok.injEq] at hfold
    rw [← hfold]; exact hc
  | cons x xs ih =>
    intro c c2 hc hfold
    simp only [List.foldlM] at hfold
    cases hx : readConfigFile fs c x with
    | error e => rw [hx] at hfold; exact absurd hfold (by simp [Bind.bind, Except.bind])
    | ok c1 =>
      rw [hx] at hfold
      simp only [Bind.bind, Except.bind] at hfold
      exact ih c1 c2 (readConfigFile_lacksKey fs c c1 x k (hall x) hc hx) hfold

theorem mergeFromFiles_lacksKey (fs : FS) (path : List String) (c c2 : Config)
    (k : String) (hall : fs.all (fun e => outcomeLacksKey k e.2) = true)
    (hc : cfgGet c k = none) (hok : mergeFromFiles fs path c = .ok c2) :
    cfgGet c2 k = none :=
  foldlM_readConfigFile_lacksKey fs k (fsLookup_lacksKey fs k hall) path.reverse c c2 hc hok

/-! ### Startup-stage lemmas -/

theorem getLocalFeatureFlags_preserves (osenv : OsEnv) (c c2 : Config)
    (k : String) (hk : k ≠ "FEATURE_FLAGS")
    (hok : getLocalFeatureFlags osenv c = .ok c2) :
    cfgGet c2 k = cfgGet c k := by
  unfold getLocalFeatureFlags at hok
  cases hff : osenv.featureFlags with
  | some s =>
    rw [hff] at hok
    simp only [Except.ok.injEq] at hok
    rw [← hok]
    exact cfgGet_setKey_ne c _ k _ hk
  | none =>
    rw [hff] at hok
    cases hv : cfgGet c "FEATURE_FLAGS" with
    | none =>
      rw [hv] at hok
      simp only [Except.ok.injEq] at hok
      rw [← hok]
      exact cfgGet_setKey_ne c _ k _ hk
    | some v =>
      rw [hv] at hok
      cases v with
      | vStr s =>
        simp only [Except.ok.injEq] at hok
        rw [← hok]
        exact cfgGet_setKey_ne c _ k _ hk
      | vInt n => exact absurd hok (by simp)
      | vStrList xs => exact absurd hok (by simp)

theorem getLocalFeatureFlags_sets (osenv : OsEnv) (c c2 : Config)
    (hok : getLocalFeatureFlags osenv c = .ok c2) :
    ∃ l, cfgGet c2 "FEATURE_FLAGS" = some (.vStrList l) := by
  unfold getLocalFeatureFlags at hok
  cases hff : osenv.featureFlags with
  | some s =>
    rw [hff] at hok
    simp only [Except.ok.injEq] at hok
    exact ⟨pySplit s, by rw [← hok]; exact cfgGet_setKey_self c _ _⟩
  | none =>
    rw [hff] at hok
    cases hv : cfgGet c "FEATURE_FLAGS" with
    | none =>
      rw [hv] at hok
      simp only [Except.ok.injEq] at hok
      exact ⟨pySplit "", by rw [← hok]; exact cfgGet_setKey_self c _ _⟩
    | some v =>
      rw [hv] at hok
      cases v with
      | vStr s =>
        simp only [Except.ok.injEq] at hok
        exact ⟨pySplit s, by rw [← hok]; exact cfgGet_setKey_self c _ _⟩
      | vInt n => exact absurd hok (by simp)
      | vStrList xs => exact absurd hok (by simp)

theorem getProcessName_preserves (osenv : OsEnv) (c : Config) (k : String)
    (hk : k ≠ "PROCESS_NAME") :
    cfgGet (getProcessName osenv c) k = cfgGet c k := by
  unfold getProcessName
  cases osenv.processName with
  | some s => exact cfgGet_setKey_ne c _ k _ hk
  | none => rfl

theorem preStartup_no_password (osenv : OsEnv) (fs : FS) (srcdir : String)
    (c : Config)
    (hfs : fs.all (fun e => outcomeLacksKey "MYSQL_PASSWORD" e.2) = true)
    (hok : preStartup osenv fs srcdir = .ok c) :
    cfgGet c "MYSQL_PASSWORD" = none := by
  unfold preStartup updateConfigFromEnv at hok
  cases hre : resolveEnvironment osenv with
  | error e =>
    rw [hre] at hok
    exact absurd hok (by simp [Bind.bind, Except.bind])
  | ok env =>
    rw [hre] at hok
    simp only [Bind.bind, Except.bind] at hok
    cases hm : mergeFromFiles fs (buildSearchPath osenv env srcdir) [] with
    | error e => rw [hm] at hok; exact absurd hok (by simp)
    | ok c1 =>
      rw [hm] at hok
      dsimp only at hok
      cases hg : getLocalFeatureFlags osenv c1 with
      | error e => rw [hg] at hok; exact absurd hok (by simp)
      | ok c2 =>
        rw [hg] at hok
        dsimp only at hok
        simp only [Except.ok.injEq] at hok
        have h1 : cfgGet c1 "MYSQL_PASSWORD" = none :=
          mergeFromFiles_lacksKey fs _ [] c1 "MYSQL_PASSWORD" hfs rfl hm
        have h2 : cfgGet c2 "MYSQL_PASSWORD" = none := by
          rw [getLocalFeatureFlags_preserves osenv c1 c2 "MYSQL_PASSWORD" (by decide) hg]
          exact h1
        rw [← hok]
        rw [getProcessName_preserves osenv c2 "MYSQL_PASSWORD" (by decide)]
        exact h2

/-! ### Small `Except`/`foldlM` computation lemmas -/

theorem except_bind_ok {α β ε : Type} (a : α) (f : α → Except ε β) :
    (Except.ok a >>= f) = f a := rfl

theorem foldlM_except_cons {σ α ε : Type} (f : σ → α → Except ε σ) (c : σ)
    (x : α) (xs : List α) :
    List.foldlM f c (x :: xs) = f c x >>= fun c2 => List.foldlM f c2 xs := rfl

theorem foldlM_readConfigFile_mem (fs : FS) :
    ∀ (l : List String) (c c2 : Config),
      List.foldlM (fun acc fn => readConfigFile fs acc fn) c l = .ok c2 →
      ∀ p ∈ l, ∃ cin cout, readConfigFile fs cin p = .ok cout := by
  intro l
  induction l with
  | nil => intro c c2 _ p hp; exact absurd hp (List.not_mem_nil p)
  | cons x xs ih =>
    intro c c2 hfold p hp
    rw [foldlM_except_cons] at hfold
    cases hx : readConfigFile fs c x with
    | error e =>
      rw [hx] at hfold
      exact absurd hfold (by simp [Bind.bind, Except.bind])
    | ok c1 =>
      rw [hx, except_bind_ok] at hfold
      rcases List.mem_cons.mp hp with rfl | hmem
      · exact ⟨c, c1, hx⟩
      · exact ih c1 c2 hfold p hmem

theorem preStartup_feature_flags (osenv : OsEnv) (fs : FS) (srcdir : String)
    (c : Config) (hok : preStartup osenv fs srcdir = .ok c) :
    ∃ l, cfgGet c "FEATURE_FLAGS" = some (.vStrList l) := by
  unfold preStartup updateConfigFromEnv at hok
  cases hre : resolveEnvironment osenv with
  | error e =>
    rw [hre] at hok
    exact absurd hok (by simp [Bind.bind, Except.bind])
  | ok env =>
    rw [hre] at hok
    simp only [Bind.bind, Except.bind] at hok
    cases hm : mergeFromFiles fs (buildSearchPath osenv env srcdir) [] with
    | error e => rw [hm] at hok; exact absurd hok (by simp)
    | ok c1 =>
      rw [hm] at hok
      dsimp only at hok
      cases hg : getLocalFeatureFlags osenv c1 with
      | error e => rw [hg] at hok; exact absurd hok (by simp)
      | ok c2 =>
        rw [hg] at hok
        dsimp only at hok
        simp only [Except.ok.injEq] at hok
        obtain ⟨l, hl⟩ := getLocalFeatureFlags_sets osenv c1 c2 hg
        refine ⟨l, ?_⟩
        rw [← hok]
        rw [getProcessName_preserves osenv c2 "FEATURE_FLAGS" (by decide)]
        exact hl

/-! ### Concrete inputs used by the witnesses -/

/-- An environment with none of the six variables set. -/
def osenvEmpty : OsEnv := ⟨none, none, none, none, none, none⟩

/-- The configuration of the C1 example. -/
def cfgC1 : Config :=
  [("MYSQL_USER", .vStr "u"), ("MYSQL_PASSWORD", .vStr "p@ss"),
   ("MYSQL_HOSTNAME", .vStr "h"), ("MYSQL_PORT", .vInt 3306)]

/-- An environment whose `INBOX_ENV` is the unrecognized value `qa`. -/
def qaOsEnv : OsEnv := ⟨some "qa", none, none, none, none, none⟩

/-- Whether a result is a raised `ConfigError`. -/
def isConfigErrorResult : Except PyError String → Bool
  | .error (.configError _ _) => true
  | _ => false

/-- A config holding the four MySQL connection fields. -/
def mkMysqlConfig (u p hs : String) (port : Int) : Config :=
  [("MYSQL_USER", .vStr u), ("MYSQL_PASSWORD", .vStr p),
   ("MYSQL_HOSTNAME", .vStr hs), ("MYSQL_PORT", .vInt port)]

/-! ### Claim theorems -/

/-- C1: with MYSQL_USER set to u, MYSQL_PASSWORD to the string p at-sign ss,
MYSQL_HOSTNAME to h, MYSQL_PORT to 3306, and no container-linking
environment variables, `engine_uri` with no database argument returns
exactly the URI with the password percent-escaped and an empty database
segment. -/
theorem engine_uri_escapes_and_defaults (osenv : OsEnv)
    (h1 : osenv.mysqlTcpAddr = none) (h2 : osenv.mysqlTcpPort = none) :
    engine_uri osenv cfgC1 none =
      .ok "mysql+mysqldb://u:p%40ss@h:3306/?charset=utf8mb4" := by
  obtain ⟨ie, icp, ff, pn, ta, tp⟩ := osenv
  obtain rfl : ta = none := h1
  obtain rfl : tp = none := h2
  rfl

theorem engine_uri_escapes_and_defaults_witness :
    engine_uri osenvEmpty cfgC1 none =
      .ok "mysql+mysqldb://u:p%40ss@h:3306/?charset=utf8mb4" :=
  engine_uri_escapes_and_defaults osenvEmpty rfl rfl

/-- C2: when no merged configuration source ever provides MYSQL_PASSWORD,
the startup sequence can never succeed, and as soon as the merge,
feature-flag and process-name passes complete it fails with the
message instructing the operator to supply a secrets file. -/
theorem startup_requires_mysql_password (osenv : OsEnv) (fs : FS)
    (srcdir : String)
    (hfs : fs.all (fun e => outcomeLacksKey "MYSQL_PASSWORD" e.2) = true) :
    (∀ c, startup osenv fs srcdir ≠ .ok c) ∧
    (∀ c, preStartup osenv fs srcdir = .ok c →
       startup osenv fs srcdir = .error (.exception missingSecretsMsg)) := by
  have key : ∀ c, preStartup osenv fs srcdir = .ok c →
      startup osenv fs srcdir = .error (.exception missingSecretsMsg) := by
    intro c hpre
    have hnone := preStartup_no_password osenv fs srcdir c hfs hpre
    unfold startup
    rw [hpre]
    simp only [Bind.bind, Except.bind]
    rw [hnone]
  refine ⟨?_, key⟩
  intro c hok
  cases hpre : preStartup osenv fs srcdir with
  | error e =>
    unfold startup at hok
    rw [hpre] at hok
    exact absurd hok (by simp [Bind.bind, Except.bind])
  | ok c1 =>
    rw [key c1 hpre] at hok
    exact Except.noConfusion hok

theorem startup_requires_mysql_password_witness :
    startup osenvEmpty [] "/src" = .error (.exception missingSecretsMsg) :=
  (startup_requires_mysql_password osenvEmpty [] "/src" rfl).2
    [("FEATURE_FLAGS", .vStrList [])] rfl

/-- C3: merging reads the search path in reverse of priority order and
shallow-merges each document, so keys from the higher-priority file A
overwrite keys from the lower-priority file B: with A mapping x to a and
B mapping x to b and y to cv, the merged result maps x to a and y to cv. -/
theorem mergeFromFiles_priority_overwrite (fs : FS) (A B x y : String)
    (a b cv : Value) (c0 : Config) (hxy : x ≠ y)
    (hA : fsLookup fs A = .parsed (.mapping [(x, a)]))
    (hB : fsLookup fs B = .parsed (.mapping [(x, b), (y, cv)])) :
    ∃ m, mergeFromFiles fs [A, B] c0 = .ok m ∧
      cfgGet m x = some a ∧ cfgGet m y = some cv := by
  have s1 : readConfigFile fs c0 B = .ok (setKey (setKey c0 x b) y cv) := by
    simp [readConfigFile, hB, updateDict]
  have s2 : readConfigFile fs (setKey (setKey c0 x b) y cv) A =
      .ok (setKey (setKey (setKey c0 x b) y cv) x a) := by
    simp [readConfigFile, hA, updateDict]
  refine ⟨setKey (setKey (setKey c0 x b) y cv) x a, ?_, ?_, ?_⟩
  · unfold mergeFromFiles
    rw [show ([A, B] : List String).reverse = [B, A] from rfl]
    rw [foldlM_except_cons, s1, except_bind_ok, foldlM_except_cons, s2,
      except_bind_ok]
    rfl
  · exact cfgGet_setKey_self _ x a
  · rw [cfgGet_setKey_ne _ x y a (fun hyx => hxy hyx.symm)]
    exact cfgGet_setKey_self _ y cv

theorem mergeFromFiles_priority_overwrite_witness :
    ∃ m, mergeFromFiles
        [("a.json", .parsed (.mapping [("x", .vInt 1)])),
         ("b.json", .parsed (.mapping [("x", .vInt 2), ("y", .vInt 3)]))]
        ["a.json", "b.json"] [] = .ok m ∧
      cfgGet m "x" = some (.vInt 1) ∧ cfgGet m "y" = some (.vInt 3) :=
  mergeFromFiles_priority_overwrite _ "a.json" "b.json" "x" "y"
    (.vInt 1) (.vInt 2) (.vInt 3) [] (by decide) rfl rfl

/-- C4: a path whose open fails with file-not-found is silently skipped
(the configuration is returned unchanged), while an open failing with any
other errno re-raises the I/O error and an unparsable file raises the
parse error. -/
theorem readConfigFile_missing_skipped_errors_raised (fs : FS) (c : Config)
    (p : String) :
    (fsLookup fs p = .openErr ENOENT → readConfigFile fs c p = .ok c) ∧
    (∀ e, fsLookup fs p = .openErr e → e ≠ ENOENT →
       readConfigFile fs c p = .error (.ioError e p)) ∧
    (fsLookup fs p = .parseErr → readConfigFile fs c p = .error (.yamlError p)) := by
  refine ⟨?_, ?_, ?_⟩
  · intro h; simp [readConfigFile, h]
  · intro e h he; simp [readConfigFile, h, he]
  · intro h; simp [readConfigFile, h]

theorem readConfigFile_missing_skipped_errors_raised_witness :
    readConfigFile [("eacces.yml", .openErr 13)] [] "missing.yml" = .ok [] ∧
    readConfigFile [("eacces.yml", .openErr 13)] [] "eacces.yml" =
      .error (.ioError 13 "eacces.yml") ∧
    readConfigFile [("bad.yml", .parseErr)] [] "bad.yml" =
      .error (.yamlError "bad.yml") :=
  ⟨(readConfigFile_missing_skipped_errors_raised
      [("eacces.yml", .openErr 13)] [] "missing.yml").1 rfl,
   (readConfigFile_missing_skipped_errors_raised
      [("eacces.yml", .openErr 13)] [] "eacces.yml").2.1 13 rfl (by decide),
   (readConfigFile_missing_skipped_errors_raised
      [("bad.yml", .parseErr)] [] "bad.yml").2.2 rfl⟩

/-- C5: the search path is the `INBOX_CFG_PATH` entries (split on the path
separator, trimmed, empties discarded, in listed order) followed by the two
built-in defaults, with the secrets file before the config file in both the
prod/staging and the dev/test tiers. -/
theorem buildSearchPath_order (osenv : OsEnv) (env srcdir s : String)
    (h : osenv.inboxCfgPath = some s) :
    buildSearchPath osenv env srcdir =
      (((splitOnChar pathSep s).map (fun p => pyStrip p)).filter
          (fun p => p ≠ "")) ++
        baseCfgPath env srcdir ∧
    ((env = "prod" ∨ env = "staging") →
       baseCfgPath env srcdir =
         ["/etc/inboxapp/secrets.yml", "/etc/inboxapp/config.json"]) ∧
    ((env = "dev" ∨ env = "test") →
       baseCfgPath env srcdir =
         [srcdir ++ "/etc/secrets-" ++ env ++ ".yml",
          srcdir ++ "/etc/config-" ++ env ++ ".json"]) := by
  obtain ⟨ie, icp, ff, pn, ta, tp⟩ := osenv
  obtain rfl : icp = some s := h
  refine ⟨rfl, ?_, ?_⟩
  · rintro (rfl | rfl) <;> rfl
  · rintro (rfl | rfl) <;> rfl

theorem buildSearchPath_order_witness :
    buildSearchPath ⟨none, some " /a/b : :/c ", none, none, none, none⟩
        "prod" "/src" =
      ["/a/b", "/c"] ++ ["/etc/inboxapp/secrets.yml", "/etc/inboxapp/config.json"] ∧
    baseCfgPath "dev" "/src" =
      ["/src" ++ "/etc/secrets-" ++ "dev" ++ ".yml",
       "/src" ++ "/etc/config-" ++ "dev" ++ ".json"] := by
  have h := buildSearchPath_order
    ⟨none, some " /a/b : :/c ", none, none, none, none⟩ "prod" "/src"
    " /a/b : :/c " rfl
  have h2 := buildSearchPath_order
    ⟨none, some " /a/b : :/c ", none, none, none, none⟩ "dev" "/src"
    " /a/b : :/c " rfl
  exact ⟨by rw [h.1]; rfl, h2.2.2 (Or.inl rfl)⟩

/-- C6 counterexample: with `INBOX_ENV` set to the unrecognized value qa,
`resolveEnvironment` fails with the `assert` message as an
`AssertionError`, not with a `ConfigError`-class failure as claimed. -/
theorem resolveEnvironment_invalid_not_configError :
    resolveEnvironment qaOsEnv = .error (.assertionError inboxEnvAssertMsg) ∧
    isConfigErrorResult (resolveEnvironment qaOsEnv) = false :=
  ⟨rfl, rfl⟩

/-- C6 (amended): `resolveEnvironment` returns dev, test, staging and prod
unchanged, returns prod when `INBOX_ENV` is unset, and for any other value
fails with the `AssertionError` raised by the `assert` statement (not with
a `ConfigError`). -/
theorem resolveEnvironment_spec (osenv : OsEnv) :
    (osenv.inboxEnv = none → resolveEnvironment osenv = .ok "prod") ∧
    (∀ v, osenv.inboxEnv = some v →
       (v = "dev" ∨ v = "test" ∨ v = "staging" ∨ v = "prod") →
       resolveEnvironment osenv = .ok v) ∧
    (∀ v, osenv.inboxEnv = some v →
       ¬(v = "dev" ∨ v = "test" ∨ v = "staging" ∨ v = "prod") →
       resolveEnvironment osenv = .error (.assertionError inboxEnvAssertMsg)) := by
  refine ⟨?_, ?_, ?_⟩
  · intro h; simp [resolveEnvironment, h]
  · intro v h hv; simp [resolveEnvironment, h, hv]
  · intro v h hv; simp [resolveEnvironment, h, hv]

theorem resolveEnvironment_spec_witness :
    resolveEnvironment osenvEmpty = .ok "prod" ∧
    resolveEnvironment ⟨some "dev", none, none, none, none, none⟩ = .ok "dev" ∧
    resolveEnvironment qaOsEnv = .error (.assertionError inboxEnvAssertMsg) :=
  ⟨(resolveEnvironment_spec osenvEmpty).1 rfl,
   (resolveEnvironment_spec ⟨some "dev", none, none, none, none, none⟩).2.1
     "dev" rfl (Or.inl rfl),
   (resolveEnvironment_spec qaOsEnv).2.2 "qa" rfl (by decide)⟩

/-- C7: after the feature-flag pass succeeds the configuration maps
FEATURE_FLAGS to a list of strings — the whitespace-split of the
environment variable when set (overriding any file value), else the
whitespace-split of a file-provided string, else the empty list — and any
configuration produced by the full startup sequence likewise carries a
string-list FEATURE_FLAGS. -/
theorem featureFlags_normalized (osenv : OsEnv) :
    (∀ c c2, getLocalFeatureFlags osenv c = .ok c2 →
       ((∀ s, osenv.featureFlags = some s →
           cfgGet c2 "FEATURE_FLAGS" = some (.vStrList (pySplit s))) ∧
        (osenv.featureFlags = none →
           ∀ s, cfgGet c "FEATURE_FLAGS" = some (.vStr s) →
             cfgGet c2 "FEATURE_FLAGS" = some (.vStrList (pySplit s))) ∧
        (osenv.featureFlags = none → cfgGet c "FEATURE_FLAGS" = none →
           cfgGet c2 "FEATURE_FLAGS" = some (.vStrList [])) ∧
        (∃ l, cfgGet c2 "FEATURE_FLAGS" = some (.vStrList l)))) ∧
    (∀ fs srcdir c, startup osenv fs srcdir = .ok c →
       ∃ l, cfgGet c "FEATURE_FLAGS" = some (.vStrList l)) := by
  constructor
  · intro c c2 hok
    refine ⟨?_, ?_, ?_, getLocalFeatureFlags_sets osenv c c2 hok⟩
    · intro s hs
      unfold getLocalFeatureFlags at hok
      rw [hs] at hok
      dsimp only at hok
      simp only [Except.ok.injEq] at hok
      rw [← hok]
      exact cfgGet_setKey_self c _ _
    · intro hn s hv
      unfold getLocalFeatureFlags at hok
      rw [hn, hv] at hok
      dsimp only at hok
      simp only [Except.ok.injEq] at hok
      rw [← hok]
      exact cfgGet_setKey_self c _ _
    · intro hn hv
      unfold getLocalFeatureFlags at hok
      rw [hn, hv] at hok
      dsimp only at hok
      simp only [Except.ok.injEq] at hok
      rw [← hok]
      exact cfgGet_setKey_self c _ _
  · intro fs srcdir c hok
    unfold startup at hok
    cases hpre : preStartup osenv fs srcdir with
    | error e =>
      rw [hpre] at hok
      exact absurd hok (by simp [Bind.bind, Except.bind])
    | ok c1 =>
      rw [hpre] at hok
      simp only [Bind.bind, Except.bind] at hok
      cases hpw : cfgGet c1 "MYSQL_PASSWORD" with
      | none => rw [hpw] at hok; exact absurd hok (by simp)
      | some v =>
        rw [hpw] at hok
        simp only [Except.ok.injEq] at hok
        rw [← hok]
        exact preStartup_feature_flags osenv fs srcdir c1 hpre

theorem featureFlags_normalized_witness :
    cfgGet (setKey [("FEATURE_FLAGS", .vStr "x y")] "FEATURE_FLAGS"
        (.vStrList (pySplit "a b c"))) "FEATURE_FLAGS" =
      some (.vStrList ["a", "b", "c"]) ∧
    cfgGet (setKey [] "FEATURE_FLAGS" (.vStrList (pySplit ""))) "FEATURE_FLAGS" =
      some (.vStrList []) := by
  have h := (featureFlags_normalized
      ⟨none, none, some "a b c", none, none, none⟩).1
    [("FEATURE_FLAGS", .vStr "x y")]
    (setKey [("FEATURE_FLAGS", .vStr "x y")] "FEATURE_FLAGS"
      (.vStrList (pySplit "a b c"))) rfl
  have h2 := (featureFlags_normalized osenvEmpty).1 []
    (setKey [] "FEATURE_FLAGS" (.vStrList (pySplit ""))) rfl
  exact ⟨h.1 "a b c" rfl, h2.2.2.1 rfl rfl⟩

/-- C8: `engine_uri` interpolates the docker-link environment variables
over the configured host and port when they are set, and the configured
values when they are not: the URI equals the template applied to the
environment value (when present, making the result independent of the
configured MYSQL_HOSTNAME / MYSQL_PORT) and to the configured value
otherwise. -/
theorem engine_uri_docker_link_overrides (osenv : OsEnv)
    (u p hs hs2 : String) (port port2 : Int) (db : Option String) :
    engine_uri osenv (mkMysqlConfig u p hs port) db =
      .ok (uriOf u p (osenv.mysqlTcpAddr.getD hs)
            (osenv.mysqlTcpPort.getD (toString port)) (dbSegment db)) ∧
    (∀ a, osenv.mysqlTcpAddr = some a →
       engine_uri osenv (mkMysqlConfig u p hs port) db =
         engine_uri osenv (mkMysqlConfig u p hs2 port) db) ∧
    (∀ pt, osenv.mysqlTcpPort = some pt →
       engine_uri osenv (mkMysqlConfig u p hs port) db =
         engine_uri osenv (mkMysqlConfig u p hs port2) db) := by
  obtain ⟨ie, icp, ff, pn, ta, tp⟩ := osenv
  refine ⟨?_, ?_, ?_⟩
  · cases ta <;> cases tp <;> rfl
  · intro a ha
    obtain rfl : ta = some a := ha
    cases tp <;> rfl
  · intro pt hpt
    obtain rfl : tp = some pt := hpt
    cases ta <;> rfl

theorem engine_uri_docker_link_overrides_witness :
    engine_uri ⟨none, none, none, none, some "10.0.0.5", none⟩
        (mkMysqlConfig "u" "p" "h" 3306) none =
      .ok (uriOf "u" "p" "10.0.0.5" "3306" "") ∧
    engine_uri ⟨none, none, none, none, some "10.0.0.5", none⟩
        (mkMysqlConfig "u" "p" "h" 3306) none =
      engine_uri ⟨none, none, none, none, some "10.0.0.5", none⟩
        (mkMysqlConfig "u" "p" "other-host" 3306) none := by
  have h := engine_uri_docker_link_overrides
    ⟨none, none, none, none, some "10.0.0.5", none⟩
    "u" "p" "h" "other-host" 3306 3306 none
  exact ⟨h.1, h.2.1 "10.0.0.5" rfl⟩

/-- C9: `get_required` returns the stored value for a present key and for
an absent key raises a `ConfigError` whose error text names the missing
key and whose rendered message carries the key name together with the
remediation help text. -/
theorem get_required_spec (c : Config) (key : String) :
    (∀ v, cfgGet c key = some v → get_required c key = .ok v) ∧
    (cfgGet c key = none →
       get_required c key =
         .error (.configError ("Missing config value for " ++ key ++ ".")
           defaultConfigHelp) ∧
       ∃ pre post,
         configErrorStr ("Missing config value for " ++ key ++ ".")
             defaultConfigHelp =
           pre ++ key ++ post ∧ post = "." ++ " " ++ defaultConfigHelp) := by
  constructor
  · intro v hv
    unfold get_required
    rw [hv]
  · intro hv
    constructor
    · unfold get_required
      rw [hv]
    · refine ⟨"Missing config value for ", "." ++ " " ++ defaultConfigHelp, ?_, rfl⟩
      unfold configErrorStr
      simp only [String.append_assoc]

theorem get_required_spec_witness :
    get_required [("MYSQL_USER", .vStr "bob")] "MYSQL_USER" = .ok (.vStr "bob") ∧
    get_required [] "MYSQL_USER" =
      .error (.configError ("Missing config value for " ++ "MYSQL_USER" ++ ".")
        defaultConfigHelp) :=
  ⟨(get_required_spec [("MYSQL_USER", .vStr "bob")] "MYSQL_USER").1
     (.vStr "bob") rfl,
   ((get_required_spec [] "MYSQL_USER").2 rfl).1⟩

/-- C10: a file that exists and is readable but parses to the null
document makes the merge raise the `TypeError` from `dict.update(None)`
rather than being skipped, so the merge pass succeeds only if no file on
the search path parses to the null document. -/
theorem null_document_fatal (fs : FS) (path : List String) (c c2 : Config)
    (p : String) :
    (fsLookup fs p = .parsed .null →
       readConfigFile fs c p = .error (.typeError noneTypeMsg)) ∧
    (mergeFromFiles fs path c = .ok c2 → p ∈ path →
       ∀ d, fsLookup fs p = .parsed d → d ≠ .null) := by
  constructor
  · intro h; simp [readConfigFile, h]
  · intro hok hp d hd hdn
    subst hdn
    unfold mergeFromFiles at hok
    obtain ⟨cin, cout, hstep⟩ :=
      foldlM_readConfigFile_mem fs path.reverse c c2 hok p
        (List.mem_reverse.mpr hp)
    rw [show readConfigFile fs cin p = .error (.typeError noneTypeMsg) from
      by simp [readConfigFile, hd]] at hstep
    exact Except.noConfusion hstep

theorem null_document_fatal_witness :
    readConfigFile [("empty.yml", .parsed .null)] [] "empty.yml" =
      .error (.typeError noneTypeMsg) ∧
    ((Doc.mapping [("A", .vStr "x")]) ≠ Doc.null) := by
  refine ⟨(null_document_fatal [("empty.yml", .parsed .null)] ["empty.yml"]
    [] [] "empty.yml").1 rfl, ?_⟩
  exact (null_document_fatal
      [("good.yml", .parsed (.mapping [("A", .vStr "x")]))] ["good.yml"]
      [] [("A", .vStr "x")] "good.yml").2 rfl
    (List.mem_singleton.mpr rfl) (Doc.mapping [("A", .vStr "x")]) rfl

end InboxConfig
